import Mathlib

set_option maxRecDepth 100000

/-!
Verification of the job-application pipeline (Applicator).

This file gives a shallow embedding of the data handling of the pipeline:
JSON-like values and Python-style dicts, the MD5-based job identity from
`storage.py`, the email field backfill from `email_parser.py`, the retry
loop of `ollama_client.parse_structured`, the score clamping of
`job_scorer.score_job`, the degraded-profile paths of
`company_researcher.research_company`, the resume post-processing of
`resume_parser.parse_resume`, and the ingestion/review loops of `main.py`.
External collaborators (the LLM endpoint, `json.loads`, the mail API, web
fetches) are parameters of the embedded functions; everything the
repository itself computes is embedded concretely.
-/

/-- A JSON-like value, as produced by decoding a model response. -/
inductive JVal where
  | null : JVal
  | bool (b : Bool) : JVal
  | num (n : Int) : JVal
  | str (s : String) : JVal
  | arr (xs : List JVal) : JVal
  | obj (fields : List (String × JVal)) : JVal
deriving Repr

/-- A Python dict with string keys, in insertion order (keys unique). -/
abbrev Dict := List (String × JVal)

/-- Python dict lookup d[k]: first binding of k. -/
def dlookup (d : Dict) (k : String) : Option JVal :=
  match d with
  | [] => none
  | (k0, v0) :: rest => if k0 = k then some v0 else dlookup rest k

/-- Python `k in d`. -/
def dmem (d : Dict) (k : String) : Bool := (dlookup d k).isSome

/-- Python `d[k] = v`: replace in place if the key exists, else append. -/
def dset (d : Dict) (k : String) (v : JVal) : Dict :=
  match d with
  | [] => [(k, v)]
  | (k0, v0) :: rest => if k0 = k then (k0, v) :: rest else (k0, v0) :: dset rest k v

/-- Python `d.get(k, dflt)`. -/
def dgetD (d : Dict) (k : String) (dflt : JVal) : JVal :=
  match dlookup d k with
  | some v => v
  | none => dflt

/-- Python truthiness of a decoded JSON value (`bool(v)`). -/
def pyTruthy : JVal → Bool
  | .null => false
  | .bool b => b
  | .num n => n ≠ 0
  | .str s => s ≠ ""
  | .arr xs => !xs.isEmpty
  | .obj fs => !fs.isEmpty

/-- The single-quote character, used by Python `repr` of strings. -/
def squote : Char := Char.ofNat 39

mutual
/-- Python `str(v)` for a decoded JSON value, as interpolated by an f-string. -/
def pyStr : JVal → String
  | .null => "None"
  | .bool true => "True"
  | .bool false => "False"
  | .num n => toString n
  | .str s => s
  | .arr xs => "[" ++ String.intercalate ", " (pyReprList xs) ++ "]"
  | .obj _ => "\x7b...\x7d"

/-- Python `repr` of each element of a list (string escaping elided). -/
def pyReprList : List JVal → List String
  | [] => []
  | .str s :: rest => (String.mk [squote] ++ s ++ String.mk [squote]) :: pyReprList rest
  | v :: rest => pyStr v :: pyReprList rest
end

/-- Python `\s` for the characters that occur here: ASCII whitespace. -/
def pyIsSpace (c : Char) : Bool :=
  c = ' ' || c = Char.ofNat 9 || c = Char.ofNat 10 || c = Char.ofNat 13
    || c = Char.ofNat 11 || c = Char.ofNat 12

/-- Python `s.strip()`. -/
def pyStrip (s : String) : String :=
  String.mk (((s.toList.dropWhile pyIsSpace).reverse.dropWhile pyIsSpace).reverse)

/-- The value of a nonempty all-digit character run, else `none`. -/
def digitsVal (cs : List Char) : Option Nat :=
  if !cs.isEmpty && cs.all Char.isDigit then
    some (cs.foldl (fun a c => 10 * a + (c.toNat - 48)) 0)
  else none

/-- Python `int(s)` on a string: optional sign, then decimal digits,
surrounding whitespace allowed. -/
def pyIntStr (cs : List Char) : Option Int :=
  match cs with
  | [] => none
  | c :: rest =>
    if c = '-' then (digitsVal rest).map (fun n => -(n : Int))
    else if c = '+' then (digitsVal rest).map (fun n => (n : Int))
    else (digitsVal cs).map (fun n => (n : Int))

/-- Python `int(v)` on a decoded JSON value: `some` on success, `none` when
`int()` raises `ValueError`/`TypeError`. -/
def pyInt : JVal → Option Int
  | .num n => some n
  | .bool true => some 1
  | .bool false => some 0
  | .str s => pyIntStr (pyStrip s).toList
  | _ => none

/-! ## MD5 (as used by `hashlib.md5` in `storage.py`) -/

/-- The 64 MD5 round constants `K[i] = floor(2^32 * |sin(i+1)|)`. -/
def md5K : List Nat :=
  [0xd76aa478, 0xe8c7b756, 0x242070db, 0xc1bdceee,
   0xf57c0faf, 0x4787c62a, 0xa8304613, 0xfd469501,
   0x698098d8, 0x8b44f7af, 0xffff5bb1, 0x895cd7be,
   0x6b901122, 0xfd987193, 0xa679438e, 0x49b40821,
   0xf61e2562, 0xc040b340, 0x265e5a51, 0xe9b6c7aa,
   0xd62f105d, 0x02441453, 0xd8a1e681, 0xe7d3fbc8,
   0x21e1cde6, 0xc33707d6, 0xf4d50d87, 0x455a14ed,
   0xa9e3e905, 0xfcefa3f8, 0x676f02d9, 0x8d2a4c8a,
   0xfffa3942, 0x8771f681, 0x6d9d6122, 0xfde5380c,
   0xa4beea44, 0x4bdecfa9, 0xf6bb4b60, 0xbebfbc70,
   0x289b7ec6, 0xeaa127fa, 0xd4ef3085, 0x04881d05,
   0xd9d4d039, 0xe6db99e5, 0x1fa27cf8, 0xc4ac5665,
   0xf4292244, 0x432aff97, 0xab9423a7, 0xfc93a039,
   0x655b59c3, 0x8f0ccc92, 0xffeff47d, 0x85845dd1,
   0x6fa87e4f, 0xfe2ce6e0, 0xa3014314, 0x4e0811a1,
   0xf7537e82, 0xbd3af235, 0x2ad7d2bb, 0xeb86d391]

/-- The 64 MD5 per-round left-rotation amounts. -/
def md5S : List Nat :=
  [7, 12, 17, 22, 7, 12, 17, 22, 7, 12, 17, 22, 7, 12, 17, 22,
   5,  9, 14, 20, 5,  9, 14, 20, 5,  9, 14, 20, 5,  9, 14, 20,
   4, 11, 16, 23, 4, 11, 16, 23, 4, 11, 16, 23, 4, 11, 16, 23,
   6, 10, 15, 21, 6, 10, 15, 21, 6, 10, 15, 21, 6, 10, 15, 21]

/-- 32-bit left rotation. -/
def rotl32 (x s : Nat) : Nat :=
  (((x <<< s) % 4294967296) ||| (x >>> (32 - s)))

/-- MD5 nonlinear function for round `i`. -/
def md5F (i b c d : Nat) : Nat :=
  if i < 16 then (b &&& c) ||| ((0xffffffff ^^^ b) &&& d)
  else if i < 32 then (d &&& b) ||| ((0xffffffff ^^^ d) &&& c)
  else if i < 48 then b ^^^ c ^^^ d
  else c ^^^ (b ||| (0xffffffff ^^^ d))

/-- MD5 message-word index for round `i`. -/
def md5G (i : Nat) : Nat :=
  if i < 16 then i
  else if i < 32 then (5 * i + 1) % 16
  else if i < 48 then (3 * i + 5) % 16
  else (7 * i) % 16

/-- One MD5 round applied to the state `(a, b, c, d)`. -/
def md5Round (M : List Nat) (st : Nat × Nat × Nat × Nat) (i : Nat) :
    Nat × Nat × Nat × Nat :=
  let (a, b, c, d) := st
  let f := (md5F i b c d + a + md5K.getD i 0 + M.getD (md5G i) 0) % 4294967296
  (d, (b + rotl32 f (md5S.getD i 0)) % 4294967296, b, c)

/-- Split a byte list into the 16 little-endian 32-bit words of a block. -/
def md5Words (block : List Nat) : List Nat :=
  (List.range 16).map fun j =>
    block.getD (4 * j) 0 + 256 * block.getD (4 * j + 1) 0
      + 65536 * block.getD (4 * j + 2) 0 + 16777216 * block.getD (4 * j + 3) 0

/-- Process one 64-byte block, updating the MD5 state. -/
def md5Block (st : Nat × Nat × Nat × Nat) (block : List Nat) :
    Nat × Nat × Nat × Nat :=
  let M := md5Words block
  let (a, b, c, d) := (List.range 64).foldl (md5Round M) st
  ((st.1 + a) % 4294967296, (st.2.1 + b) % 4294967296,
   (st.2.2.1 + c) % 4294967296, (st.2.2.2 + d) % 4294967296)

/-- A `Nat` as `k` little-endian bytes. -/
def toLEBytes (k n : Nat) : List Nat :=
  (List.range k).map fun j => n / 256 ^ j % 256

/-- MD5 padding: `0x80`, zeros to 56 mod 64, then the 64-bit bit length. -/
def md5Pad (msg : List Nat) : List Nat :=
  let len := msg.length
  let zeros := (119 - len % 64) % 64
  msg ++ [0x80] ++ List.replicate zeros 0 ++ toLEBytes 8 (len * 8 % 2 ^ 64)

/-- Split a list into chunks of 64 elements (fuel-driven; `fuel` bounds the
number of chunks, and one chunk consumes at least one element, so
`fuel = l.length` never runs out before the list does). -/
def chunks64Go : Nat → List Nat → List (List Nat)
  | 0, _ => []
  | _ + 1, [] => []
  | fuel + 1, l => l.take 64 :: chunks64Go fuel (l.drop 64)

/-- Split a list into chunks of 64 elements. -/
def chunks64 (l : List Nat) : List (List Nat) := chunks64Go l.length l

/-- The 16 digest bytes of the MD5 of a byte list. -/
def md5Bytes (msg : List Nat) : List Nat :=
  let st := (chunks64 (md5Pad msg)).foldl md5Block
    (0x67452301, 0xefcdab89, 0x98badcfe, 0x10325476)
  toLEBytes 4 st.1 ++ toLEBytes 4 st.2.1 ++ toLEBytes 4 st.2.2.1
    ++ toLEBytes 4 st.2.2.2

/-- Lowercase hex digit for a value below 16. -/
def hexDigit (n : Nat) : Char :=
  if n < 10 then Char.ofNat (48 + n) else Char.ofNat (87 + n)

/-- Two lowercase hex digits of a byte. -/
def byteHex (b : Nat) : List Char := [hexDigit (b / 16), hexDigit (b % 16)]

/-- The hexdigest of hashlib.md5 on a byte list. -/
def md5HexDigest (msg : List Nat) : String :=
  String.mk ((md5Bytes msg).map byteHex).flatten

/-- UTF-8 encoding of one character (`str.encode()` is UTF-8). -/
def utf8Char (c : Char) : List Nat :=
  let n := c.toNat
  if n < 0x80 then [n]
  else if n < 0x800 then [0xC0 ||| (n >>> 6), 0x80 ||| (n &&& 0x3F)]
  else if n < 0x10000 then
    [0xE0 ||| (n >>> 12), 0x80 ||| ((n >>> 6) &&& 0x3F), 0x80 ||| (n &&& 0x3F)]
  else
    [0xF0 ||| (n >>> 18), 0x80 ||| ((n >>> 12) &&& 0x3F),
     0x80 ||| ((n >>> 6) &&& 0x3F), 0x80 ||| (n &&& 0x3F)]

/-- UTF-8 bytes of a string, as Python `s.encode()`. -/
def utf8Bytes (s : String) : List Nat := (s.toList.map utf8Char).flatten

/-- Embeds Storage._generate_job_id: the first 12 hex characters of the MD5
of the concatenated title, company and url fields, each read with the empty
string as default. -/
def generateJobId (job : Dict) : String :=
  let uniqueString := pyStr (dgetD job "title" (.str ""))
    ++ pyStr (dgetD job "company" (.str "")) ++ pyStr (dgetD job "url" (.str ""))
  (md5HexDigest (utf8Bytes uniqueString)).take 12

/-! ## Email parsing (`email_parser.py`) -/

/-- Case-insensitive match of a literal prefix; on success returns the rest. -/
def dropCIHead (pre : List Char) (s : List Char) : Option (List Char) :=
  match pre, s with
  | [], rest => some rest
  | _ :: _, [] => none
  | p :: ps, c :: cs => if p.toLower = c.toLower then dropCIHead ps cs else none

/-- Python re.sub of an anchored case-insensitive "RE:" plus trailing
whitespace, replaced by the empty string. -/
def subReHead (s : List Char) : List Char :=
  match dropCIHead ['r', 'e', ':'] s with
  | some rest => rest.dropWhile pyIsSpace
  | none => s

/-- Python re.sub of an anchored case-insensitive "FWD?:" plus trailing
whitespace, replaced by the empty string (the greedy optional D tries
"FWD:" before "FW:"). -/
def subFwdHead (s : List Char) : List Char :=
  match dropCIHead ['f', 'w', 'd', ':'] s with
  | some rest => rest.dropWhile pyIsSpace
  | none =>
    match dropCIHead ['f', 'w', ':'] s with
    | some rest => rest.dropWhile pyIsSpace
    | none => s

/-- A separator character of the re.split pattern [|\-–—] applied to the
subject. -/
def isTitleSep (c : Char) : Bool :=
  c = '|' || c = '-' || c = Char.ofNat 0x2013 || c = Char.ofNat 0x2014

/-- Embeds EmailParser._extract_title_from_subject: strip Re:/Fwd: markers,
take the first segment before a separator, strip whitespace, cap at 100. -/
def extractTitleFromSubject (subject : String) : String :=
  let s1 := subReHead subject.toList
  let s2 := subFwdHead s1
  let title := pyStrip (String.mk (s2.takeWhile (fun c => !isTitleSep c)))
  title.take 100

/-- A character allowed inside a URL by the pattern
`https?://[^\s<>"\x7b\x7d|\\^\x60\[\]]+`. -/
def urlChar (c : Char) : Bool :=
  !(pyIsSpace c || c = '<' || c = '>' || c = Char.ofNat 34 || c = Char.ofNat 123
    || c = Char.ofNat 125 || c = '|' || c = '\\' || c = '^' || c = Char.ofNat 96
    || c = Char.ofNat 91 || c = Char.ofNat 93)

/-- Match `https?://` at the head of the character list. -/
def matchScheme (s : List Char) : Option (List Char × List Char) :=
  if s.take 8 = "https://".toList then some ("https://".toList, s.drop 8)
  else if s.take 7 = "http://".toList then some ("http://".toList, s.drop 7)
  else none

/-- Scanner for `re.findall` of the URL pattern: left-to-right, at each
position try the scheme followed by at least one URL character, emit the
maximal match and continue after it (fuel bounds the steps; every step
consumes at least one character, so `fuel = s.length` suffices). -/
def findUrlsGo : Nat → List Char → List String
  | 0, _ => []
  | _ + 1, [] => []
  | fuel + 1, s@(_ :: rest) =>
    match matchScheme s with
    | some (scheme, after) =>
      let body := after.takeWhile urlChar
      if body.isEmpty then findUrlsGo fuel rest
      else String.mk (scheme ++ body) :: findUrlsGo fuel (after.drop body.length)
    | none => findUrlsGo fuel rest

/-- All matches of the URL pattern in a body. -/
def findUrls (s : String) : List String := findUrlsGo s.toList.length s.toList

/-- Python substring membership (needle in hay) for character lists. -/
def listContains (needle : List Char) : List Char → Bool
  | [] => needle.isEmpty
  | hay@(_ :: t) => hay.take needle.length = needle || listContains needle t

/-- Python `sub in s.lower()` membership test. -/
def containsLower (s : String) (sub : String) : Bool :=
  listContains sub.toList (s.toList.map Char.toLower)

/-- The job-keyword test of _extract_url: some keyword occurs in the
lowercased url. -/
def urlHasJobKeyword (url : String) : Bool :=
  ["job", "career", "apply", "position", "opening"].any
    (fun kw => containsLower url kw)

/-- Embeds EmailParser._extract_url: first URL containing a job keyword,
else the
first URL found, else the empty string. -/
def extractUrl (body : String) : String :=
  let urls := findUrls body
  match urls.find? urlHasJobKeyword with
  | some u => u
  | none => urls.headD ""

/-- Embeds EmailParser._extract_source: provider keyword match on the
lowercased
sender address. -/
def extractSource (emailFrom : String) : String :=
  if containsLower emailFrom "linkedin" then "LinkedIn"
  else if containsLower emailFrom "indeed" then "Indeed"
  else if containsLower emailFrom "glassdoor" then "Glassdoor"
  else if containsLower emailFrom "ziprecruiter" then "ZipRecruiter"
  else if containsLower emailFrom "monster" then "Monster"
  else "Unknown"

/-- Embeds EmailParser.parse_email after the Gateway call: jobData is the dict
returned by `parse_structured` on the extraction prompt (the model itself is
external); the function backfills title, company, location, url, source and
description exactly as the source does. -/
def parseEmail (emailSubject emailBody emailFrom : String) (jobData : Dict) :
    Dict :=
  let d1 :=
    if !dmem jobData "title" || !pyTruthy (dgetD jobData "title" .null) then
      dset jobData "title" (.str (extractTitleFromSubject emailSubject))
    else jobData
  let d2 := if !dmem d1 "company" then dset d1 "company" (.str "Unknown") else d1
  let d3 := if !dmem d2 "location" then dset d2 "location" (.str "Unknown") else d2
  let d4 := if !dmem d3 "url" then dset d3 "url" (.str (extractUrl emailBody)) else d3
  let d5 :=
    if !dmem d4 "source" then dset d4 "source" (.str (extractSource emailFrom))
    else d4
  dset d5 "description" (dgetD d5 "description" (.str (emailBody.take 500)))

/-! ## The Gateway retry loop (`ollama_client.parse_structured`)

The model endpoint and `json.loads` are external: the endpoint is an oracle
`invokeResp` giving the outcome of the `i`-th `llm.invoke` call (a response
string, or a raised exception with its message), and `jsonLoads` decodes a
string to a JSON value or fails with a `JSONDecodeError` message. -/

/-- Outcome of the parsing part of one loop iteration: an early `return` of a
dict, a caught exception, or falling through (decoded JSON that is not an
object). -/
inductive AttemptOut where
  | ret (d : Dict) : AttemptOut
  | exc (msg : String) : AttemptOut
  | fall : AttemptOut

/-- Python re.search for a brace-delimited span with DOTALL: the span from
the first
opening brace to the last closing brace, when the first opening brace comes
before the last closing brace. -/
def braceSpan (s : String) : Option String :=
  let cs := s.toList
  match cs.findIdx? (fun c => c = Char.ofNat 123) with
  | none => none
  | some i =>
    match cs.reverse.findIdx? (fun c => c = Char.ofNat 125) with
    | none => none
    | some rj =>
      let j := cs.length - 1 - rj
      if i < j then some (String.mk ((cs.drop i).take (j - i + 1))) else none

/-- The fallback json.loads of the stripped response plus the dict check,
used when no
brace span is found or the span decodes to a non-object. -/
def wholeParse (jsonLoads : String → Except String JVal) (response : String) :
    AttemptOut :=
  match jsonLoads (pyStrip response) with
  | .error e => .exc e
  | .ok (.obj fs) => .ret fs
  | .ok _ => .fall

/-- The body of one `parse_structured` loop iteration on a response string:
try the brace span first, then the whole stripped response. -/
def attemptBody (jsonLoads : String → Except String JVal) (response : String) :
    AttemptOut :=
  match braceSpan response with
  | some g =>
    match jsonLoads g with
    | .error e => .exc e
    | .ok (.obj fs) => .ret fs
    | .ok _ => wholeParse jsonLoads response
  | none => wholeParse jsonLoads response

/-- The error dict `{"error": str(e), "raw_response": response[:500]}`. -/
def psErrDict (e response : String) : Dict :=
  [("error", .str e), ("raw_response", .str (response.take 500))]

/-- One loop iteration of `parse_structured`, given the outcome of this
llm.invoke call of this iteration and the current value of the response
variable: yields the parsing outcome together with the new value of
`response` (unchanged when `llm.invoke` itself raised). -/
def psIter (jsonLoads : String → Except String JVal)
    (outcome : Except String String) (response : String) :
    AttemptOut × String :=
  match outcome with
  | .error e => (.exc e, response)
  | .ok r => (attemptBody jsonLoads r, r)

/-- Dispatch on the outcome of an iteration: an early return, the
last-attempt error return (`attempt == max_retries - 1`), or continuing
the loop (`rest`). The prompt list records the prompt this iteration sent. -/
def psHandle (prompt : String) (isLast : Bool)
    (rest : String → Dict × List String) :
    AttemptOut × String → Dict × List String
  | (.ret d, _) => (d, [prompt])
  | (.exc e, newResp) =>
      if isLast then (psErrDict e newResp, [prompt])
      else ((rest newResp).1, prompt :: (rest newResp).2)
  | (.fall, newResp) =>
      ((rest newResp).1, prompt :: (rest newResp).2)

/-- The `for attempt in range(max_retries)` loop of `parse_structured`.
Arguments: the current attempt index, the number of remaining iterations and
the current value of the `response` variable. Returns the resulting dict and
the list of prompts sent to the model, in order; falling out of the loop
returns the generic error dict. -/
def psGo (invokeResp : Nat → Except String String)
    (jsonLoads : String → Except String JVal) (prompt : String) :
    Nat → Nat → String → Dict × List String
  | _, 0, response => (psErrDict "Failed to parse after retries" response, [])
  | attempt, remaining + 1, response =>
      psHandle prompt (remaining == 0)
        (psGo invokeResp jsonLoads prompt (attempt + 1) remaining)
        (psIter jsonLoads (invokeResp attempt) response)

/-- Embeds OllamaClient.parse_structured(prompt, max_retries): runs the retry
loop starting from `response = ""`. Always returns a dict (every exception
in the loop body is caught); the second component records the prompts sent. -/
def parseStructured (invokeResp : Nat → Except String String)
    (jsonLoads : String → Except String JVal) (prompt : String)
    (maxRetries : Nat) : Dict × List String :=
  psGo invokeResp jsonLoads prompt 0 maxRetries ""

/-! ## Job scoring (`job_scorer.score_job`) -/

/-- The constant dict returned by `score_job` when the Gateway reports an
error sentinel `v` (the `scoring_result["error"]` value). -/
def scoreJobErrorResult (v : JVal) : Dict :=
  [("score", .num 0),
   ("reasoning", .str ("Scoring failed: " ++ pyStr v)),
   ("skill_match_score", .num 0), ("experience_match_score", .num 0),
   ("preferences_match_score", .num 0), ("location_match_score", .num 0),
   ("overall_fit_score", .num 0),
   ("matched_skills", .arr []), ("missing_skills", .arr []),
   ("error", v)]

/-- Embeds JobScorer.score_job after the Gateway call: scoringResult is the
dict
`parse_structured` returned for the scoring prompt; `resumeSkills` is
`resume_data.get("skills", [])` and `job` the record being scored. -/
def scoreJob (resumeSkills : List JVal) (job : Dict) (scoringResult : Dict) :
    Dict :=
  if dmem scoringResult "error" then
    scoreJobErrorResult (dgetD scoringResult "error" (.str "Unknown error"))
  else
    let r1 :=
      match pyInt (dgetD scoringResult "score" (.num 0)) with
      | some n => dset scoringResult "score" (.num (max 0 (min 100 n)))
      | none => dset scoringResult "score" (.num 0)
    let r2 :=
      if !dmem r1 "reasoning" then
        dset r1 "reasoning" (.str "Score calculated based on resume match")
      else r1
    let r3 :=
      if !dmem r2 "matched_skills" then dset r2 "matched_skills" (.arr [])
      else r2
    let r4 :=
      if !dmem r3 "missing_skills" then dset r3 "missing_skills" (.arr [])
      else r3
    let r5 := dset r4 "resume_skills_count" (.num resumeSkills.length)
    let r6 := dset r5 "job_title" (dgetD job "title" (.str ""))
    dset r6 "job_company" (dgetD job "company" (.str ""))

/-! ## Company research (`company_researcher.research_company`) -/

/-- One entry of the `url_contents` list assembled from the page fetches
(the search and the fetches themselves are external collaborators). -/
structure UrlContent where
  url : String
  pageTitle : String
  content : String

/-- Embeds CompanyResearcher.research_company after the fetch loop:
`urlContents` is the assembled `url_contents` list and `researchResult` the
dict `parse_structured` returned for the synthesis prompt. When
`urlContents` is empty the source returns before building the prompt or
calling the Gateway, so the result cannot depend on `researchResult`. -/
def researchCompany (companyName : String) (urlContents : List UrlContent)
    (researchResult : Dict) : Dict :=
  if urlContents.isEmpty then
    [("company", .str companyName), ("summary", .str "No information found"),
     ("tech_stack", .arr []), ("values", .arr []), ("recent_news", .arr []),
     ("culture", .str "Unknown")]
  else if dmem researchResult "error" then
    [("company", .str companyName),
     ("summary", .str ("Research failed: "
        ++ pyStr (dgetD researchResult "error" (.str "Unknown error")))),
     ("tech_stack", .arr []), ("values", .arr []), ("recent_news", .arr []),
     ("culture", .str "Unknown"), ("size", .str "Unknown"),
     ("industry", .str "Unknown"), ("funding_stage", .str "Unknown"),
     ("sources", if urlContents.isEmpty then .arr []
       else .arr (urlContents.map (fun u => .str u.url))),
     ("error", dgetD researchResult "error" (.str "Unknown"))]
  else
    let r1 :=
      if !dmem researchResult "company" then
        dset researchResult "company" (.str companyName)
      else researchResult
    let r2 :=
      if !dmem r1 "tech_stack" then dset r1 "tech_stack" (.arr []) else r1
    let r3 := if !dmem r2 "values" then dset r2 "values" (.arr []) else r2
    let r4 :=
      if !dmem r3 "recent_news" then dset r3 "recent_news" (.arr []) else r3
    dset r4 "sources" (.arr (urlContents.map (fun u => .str u.url)))

/-! ## Resume parsing (`resume_parser.parse_resume`) -/

/-- The post-Gateway part of `ResumeParser.parse_resume` on a cache miss:
`resumeText` is the fetched document text and `resumeData` the dict
`parse_structured` returned. A Gateway error sentinel raises `ValueError`
(modelled as `Except.error` with the exception message). -/
def parseResumePost (resumeText : String) (resumeData : Dict) :
    Except String Dict :=
  if dmem resumeData "error" then
    .error ("Failed to parse resume: "
      ++ pyStr (dgetD resumeData "error" (.str "Unknown error")))
  else
    let r1 :=
      if !dmem resumeData "skills" then dset resumeData "skills" (.arr [])
      else resumeData
    let r2 :=
      if !dmem r1 "experience_years" then dset r1 "experience_years" (.num 0)
      else r1
    let r3 :=
      if !dmem r2 "experience_level" then
        dset r2 "experience_level" (.str "mid")
      else r2
    .ok (dset r3 "raw_text" (.str resumeText))

/-! ## Email ingestion and review (`main.py`) -/

/-- Python `v == s` for a dict value against a string (`job.get("id") ==
job_id`): only equal strings compare equal. -/
def jvalEqStr (v : JVal) (s : String) : Bool :=
  match v with
  | .str t => t = s
  | _ => false

/-- The state `check_emails` threads through its loop: the job store (one
record per file, keyed by filename, which is the job id used at write time),
the ids of messages marked read, and `parsed_count`. -/
structure IngestState where
  store : List (String × Dict)
  marked : List String
  parsedCount : Nat

/-- Writing `DATA_DIR/f"{job_id}.json"`: replace the file if it exists,
else create it. -/
def fsWriteJob (store : List (String × Dict)) (fname : String)
    (record : Dict) : List (String × Dict) :=
  if store.any (fun p => p.1 = fname) then
    store.map (fun p => if p.1 = fname then (fname, record) else p)
  else store ++ [(fname, record)]

/-- One iteration of the `check_emails` loop. `parseResult` is the outcome
of `parser.parse_email(...)` for this message: a job dict, or a raised
exception. On an exception the `except` clause logs and continues — the
message is not marked read. On a duplicate id the message is marked read
and nothing is written. Otherwise the record is written under its id and
the message is marked read. -/
def processEmail (st : IngestState) (emailId : String)
    (parseResult : Except String Dict) : IngestState :=
  match parseResult with
  | .error _ => st
  | .ok jobData =>
    let jobId := generateJobId jobData
    if st.store.any (fun p => jvalEqStr (dgetD p.2 "id" .null) jobId) then
      { st with marked := st.marked ++ [emailId] }
    else
      { store := fsWriteJob st.store jobId (dset jobData "id" (.str jobId)),
        marked := st.marked ++ [emailId],
        parsedCount := st.parsedCount + 1 }

/-- The `check_emails` loop over the fetched batch: each element is a
message id paired with the outcome of parsing that message. -/
def checkEmails (emails : List (String × Except String Dict))
    (st0 : IngestState) : IngestState :=
  emails.foldl (fun st e => processEmail st e.1 e.2) st0

/-- The number of stored records whose `id` field equals `jobId`. -/
def countId (store : List (String × Dict)) (jobId : String) : Nat :=
  (store.filter (fun p => jvalEqStr (dgetD p.2 "id" .null) jobId)).length

/-- Python job.get("score", 0) coerced for comparison: scores are numbers
(or
absent, read as 0). A non-numeric stored score would raise `TypeError` in
the Python comparison; such stores are excluded by the `scoreNumeric`
hypothesis of the theorems below, and the embedding reads them as 0. -/
def scoreInt (job : Dict) : Int :=
  match dlookup job "score" with
  | some (.num n) => n
  | some (.bool true) => 1
  | _ => 0

/-- The stored `score`, when present, is a number (so the Python comparison
and sort key behave as integers). An absent score is fine (`get` default). -/
def scoreNumeric (job : Dict) : Bool :=
  match dlookup job "score" with
  | some (.num _) => true
  | none => true
  | _ => false

/-- Embeds review_jobs(min_score) with a minimum given: keep records with
`job.get("score", 0) >= min_score` and stable-sort them by score descending
(Python `list.sort(key=..., reverse=True)` is a stable descending sort). -/
def reviewJobs (jobs : List Dict) (minScore : Int) : List Dict :=
  (jobs.filter (fun j => decide (minScore ≤ scoreInt j))).mergeSort
    (fun a b => decide (scoreInt b ≤ scoreInt a))

/-! ## Dict lemmas -/

@[simp]
theorem dlookup_dset (d : Dict) (k k2 : String) (v : JVal) :
    dlookup (dset d k v) k2 = if k = k2 then some v else dlookup d k2 := by
  induction d with
  | nil =>
    simp only [dset, dlookup]
  | cons p rest ih =>
    obtain ⟨k0, v0⟩ := p
    by_cases h0 : k0 = k
    · subst h0
      by_cases h2 : k0 = k2 <;> simp [dset, dlookup, h2]
    · by_cases h2 : k0 = k2
      · subst h2
        have hne : ¬k = k0 := fun h => h0 h.symm
        simp [dset, dlookup, h0, hne]
      · simp [dset, dlookup, h0, h2, ih]

@[simp]
theorem dmem_dset (d : Dict) (k k2 : String) (v : JVal) :
    dmem (dset d k v) k2 = (decide (k = k2) || dmem d k2) := by
  by_cases h : k = k2 <;> simp [dmem, dlookup_dset, h]

theorem dmem_eq_false_iff (d : Dict) (k : String) :
    dmem d k = false ↔ dlookup d k = none := by
  cases h : dlookup d k <;> simp [dmem, h]

theorem dgetD_eq (d : Dict) (k : String) (v : JVal) :
    dgetD d k v = (dlookup d k).getD v := by
  unfold dgetD
  cases dlookup d k <;> simp

theorem dlookup_condset_ne (c : Prop) [Decidable c] (d : Dict) (k2 k : String)
    (v : JVal) (h : k2 ≠ k) :
    dlookup (if c then dset d k2 v else d) k = dlookup d k := by
  split <;> simp [dlookup_dset, h]

theorem dlookup_condset_self (c : Prop) [Decidable c] (d : Dict) (k : String)
    (v : JVal) :
    dlookup (if c then dset d k v else d) k
      = if c then some v else dlookup d k := by
  split <;> simp [dlookup_dset]

theorem dmem_condset_ne (c : Prop) [Decidable c] (d : Dict) (k2 k : String)
    (v : JVal) (h : k2 ≠ k) :
    dmem (if c then dset d k2 v else d) k = dmem d k := by
  simp [dmem, dlookup_condset_ne c d k2 k v h]

/-! ### Lookup characterization of `parseEmail`

Each requested field of the extraction result, after the backfill chain. -/

theorem parseEmail_title (s b f : String) (g : Dict) :
    dlookup (parseEmail s b f g) "title"
      = if !dmem g "title" || !pyTruthy (dgetD g "title" .null)
        then some (.str (extractTitleFromSubject s))
        else dlookup g "title" := by
  simp only [parseEmail]
  rw [dlookup_dset, if_neg (by decide),
    dlookup_condset_ne _ _ _ _ _ (by decide),
    dlookup_condset_ne _ _ _ _ _ (by decide),
    dlookup_condset_ne _ _ _ _ _ (by decide),
    dlookup_condset_ne _ _ _ _ _ (by decide),
    dlookup_condset_self]

theorem parseEmail_company (s b f : String) (g : Dict) :
    dlookup (parseEmail s b f g) "company"
      = if !dmem g "company" then some (.str "Unknown")
        else dlookup g "company" := by
  simp only [parseEmail]
  rw [dlookup_dset, if_neg (by decide),
    dlookup_condset_ne _ _ _ _ _ (by decide),
    dlookup_condset_ne _ _ _ _ _ (by decide),
    dlookup_condset_ne _ _ _ _ _ (by decide),
    dlookup_condset_self,
    dmem_condset_ne _ _ _ _ _ (by decide),
    dlookup_condset_ne _ _ _ _ _ (by decide)]

theorem parseEmail_location (s b f : String) (g : Dict) :
    dlookup (parseEmail s b f g) "location"
      = if !dmem g "location" then some (.str "Unknown")
        else dlookup g "location" := by
  simp only [parseEmail]
  rw [dlookup_dset, if_neg (by decide),
    dlookup_condset_ne _ _ _ _ _ (by decide),
    dlookup_condset_ne _ _ _ _ _ (by decide),
    dlookup_condset_self,
    dmem_condset_ne _ _ _ _ _ (by decide),
    dmem_condset_ne _ _ _ _ _ (by decide),
    dlookup_condset_ne _ _ _ _ _ (by decide),
    dlookup_condset_ne _ _ _ _ _ (by decide)]

theorem parseEmail_url (s b f : String) (g : Dict) :
    dlookup (parseEmail s b f g) "url"
      = if !dmem g "url" then some (.str (extractUrl b))
        else dlookup g "url" := by
  simp only [parseEmail]
  rw [dlookup_dset, if_neg (by decide),
    dlookup_condset_ne _ _ _ _ _ (by decide),
    dlookup_condset_self,
    dmem_condset_ne _ _ _ _ _ (by decide),
    dmem_condset_ne _ _ _ _ _ (by decide),
    dmem_condset_ne _ _ _ _ _ (by decide),
    dlookup_condset_ne _ _ _ _ _ (by decide),
    dlookup_condset_ne _ _ _ _ _ (by decide),
    dlookup_condset_ne _ _ _ _ _ (by decide)]

theorem parseEmail_source (s b f : String) (g : Dict) :
    dlookup (parseEmail s b f g) "source"
      = if !dmem g "source" then some (.str (extractSource f))
        else dlookup g "source" := by
  simp only [parseEmail]
  rw [dlookup_dset, if_neg (by decide),
    dlookup_condset_self,
    dmem_condset_ne _ _ _ _ _ (by decide),
    dmem_condset_ne _ _ _ _ _ (by decide),
    dmem_condset_ne _ _ _ _ _ (by decide),
    dmem_condset_ne _ _ _ _ _ (by decide),
    dlookup_condset_ne _ _ _ _ _ (by decide),
    dlookup_condset_ne _ _ _ _ _ (by decide),
    dlookup_condset_ne _ _ _ _ _ (by decide),
    dlookup_condset_ne _ _ _ _ _ (by decide)]

theorem parseEmail_description (s b f : String) (g : Dict) :
    dlookup (parseEmail s b f g) "description"
      = some ((dlookup g "description").getD (.str (b.take 500))) := by
  simp only [parseEmail]
  rw [dlookup_dset, if_pos rfl]
  simp only [dgetD_eq]
  rw [dlookup_condset_ne _ _ _ _ _ (by decide),
    dlookup_condset_ne _ _ _ _ _ (by decide),
    dlookup_condset_ne _ _ _ _ _ (by decide),
    dlookup_condset_ne _ _ _ _ _ (by decide),
    dlookup_condset_ne _ _ _ _ _ (by decide)]

/-! ## Claim theorems -/

/-- C4, counterexample: the job id is not lowercase-independent. Two job
mappings whose title and company differ only in letter case get different
ids, because `_generate_job_id` hashes the fields without case folding. -/
theorem job_id_case_counterexample :
    generateJobId [("title", .str "Engineer"), ("company", .str "Acme"),
        ("url", .str "")]
      ≠ generateJobId [("title", .str "engineer"), ("company", .str "acme"),
        ("url", .str "")] := by
  decide

/-- C4, amended: the job id is a pure, case-sensitive function of
(title, company, url): identical triples give identical ids, and the id is
the first 12 hex characters of the MD5 of the concatenated triple — an
empty url still participates in the hash (the quantifier covers `u = ""`). -/
theorem job_id_pure_function (j1 j2 : Dict) (t c u : String)
    (ht : dgetD j1 "title" (.str "") = dgetD j2 "title" (.str ""))
    (hc : dgetD j1 "company" (.str "") = dgetD j2 "company" (.str ""))
    (hu : dgetD j1 "url" (.str "") = dgetD j2 "url" (.str "")) :
    generateJobId j1 = generateJobId j2
    ∧ generateJobId [("title", .str t), ("company", .str c), ("url", .str u)]
      = (md5HexDigest (utf8Bytes (t ++ c ++ u))).take 12 := by
  constructor
  · simp [generateJobId, ht, hc, hu]
  · rfl

/-- Witness for `job_id_pure_function` at a concrete input. -/
theorem job_id_pure_function_witness :
    generateJobId [("title", .str "X"), ("company", .str "Y")]
      = generateJobId [("company", .str "Y"), ("title", .str "X")]
    ∧ generateJobId [("title", .str "A"), ("company", .str "B"),
        ("url", .str "")]
      = (md5HexDigest (utf8Bytes ("A" ++ "B" ++ ""))).take 12 :=
  job_id_pure_function [("title", .str "X"), ("company", .str "Y")]
    [("company", .str "Y"), ("title", .str "X")] "A" "B" "" rfl rfl rfl

/-- C8, counterexample: the degraded profile returned when zero pages could
be fetched does not hold "Unknown" in `size`, `industry` and
`funding_stage`, and has no `sources` — those keys are absent entirely. -/
theorem zero_pages_profile_counterexample :
    dlookup (researchCompany "Acme" [] []) "size" = none
    ∧ dlookup (researchCompany "Acme" [] []) "industry" = none
    ∧ dlookup (researchCompany "Acme" [] []) "funding_stage" = none
    ∧ dlookup (researchCompany "Acme" [] []) "sources" = none :=
  ⟨rfl, rfl, rfl, rfl⟩

/-- C8, amended: with zero fetchable pages, `research_company`
short-circuits to the fixed degraded profile — `summary` is
"No information found", the three list fields are empty, `culture` is
"Unknown", and no other keys (in particular no `size`, `industry`,
`funding_stage` or `sources`) are present — and the result does not depend
on the Gateway, i.e. no Gateway call is observed. -/
theorem zero_pages_profile (companyName : String) (r1 r2 : Dict) :
    researchCompany companyName [] r1 =
      [("company", .str companyName),
       ("summary", .str "No information found"),
       ("tech_stack", .arr []), ("values", .arr []), ("recent_news", .arr []),
       ("culture", .str "Unknown")]
    ∧ researchCompany companyName [] r1 = researchCompany companyName [] r2 := by
  constructor <;> rfl

/-- C10: `parse_email` treats an explicitly empty title differently from an
explicitly empty company or location: a present-but-empty title is replaced
by the subject fallback, while a present-but-empty company or location is
returned unchanged, and an empty company participates as-is in the id hash
(the id equals the one computed with no company at all). -/
theorem parse_email_asymmetry (s b f : String) (g : Dict) (t u : String)
    (htitle : dlookup g "title" = some (.str ""))
    (hcomp : dlookup g "company" = some (.str ""))
    (hloc : dlookup g "location" = some (.str "")) :
    dlookup (parseEmail s b f g) "title"
      = some (.str (extractTitleFromSubject s))
    ∧ dlookup (parseEmail s b f g) "company" = some (.str "")
    ∧ dlookup (parseEmail s b f g) "location" = some (.str "")
    ∧ generateJobId [("title", .str t), ("company", .str ""), ("url", .str u)]
      = generateJobId [("title", .str t), ("url", .str u)] := by
  refine ⟨?_, ?_, ?_, rfl⟩
  · rw [parseEmail_title]
    have hf : pyTruthy (dgetD g "title" .null) = false := by
      rw [dgetD_eq, htitle]
      rfl
    simp [dmem, htitle, hf]
  · rw [parseEmail_company]
    simp [dmem, hcomp]
  · rw [parseEmail_location]
    simp [dmem, hloc]

theorem ite_isSome (b : Bool) (x : JVal) (o : Option JVal)
    (h : b = false → o.isSome = true) :
    (if b = true then some x else o).isSome = true := by
  cases b <;> simp_all

theorem not_eq_false_elim {b : Bool} (h : (!b) = false) : b = true := by
  cases b
  · simp at h
  · rfl

/-- C6: whenever the extraction output of the Gateway lacks one of the six
required fields, `parse_email` fills it with its documented default (the
subject-derived title, "Unknown" company/location, the body-derived url,
the sender-derived source, the first 500 characters of the body as
description), and all six fields are present in the result. -/
theorem parse_email_backfill (s b f : String) (g : Dict) :
    (dmem g "title" = false →
      dlookup (parseEmail s b f g) "title"
        = some (.str (extractTitleFromSubject s)))
    ∧ (dmem g "company" = false →
      dlookup (parseEmail s b f g) "company" = some (.str "Unknown"))
    ∧ (dmem g "location" = false →
      dlookup (parseEmail s b f g) "location" = some (.str "Unknown"))
    ∧ (dmem g "url" = false →
      dlookup (parseEmail s b f g) "url" = some (.str (extractUrl b)))
    ∧ (dmem g "source" = false →
      dlookup (parseEmail s b f g) "source" = some (.str (extractSource f)))
    ∧ (dmem g "description" = false →
      dlookup (parseEmail s b f g) "description" = some (.str (b.take 500)))
    ∧ dmem (parseEmail s b f g) "title" = true
    ∧ dmem (parseEmail s b f g) "company" = true
    ∧ dmem (parseEmail s b f g) "location" = true
    ∧ dmem (parseEmail s b f g) "url" = true
    ∧ dmem (parseEmail s b f g) "source" = true
    ∧ dmem (parseEmail s b f g) "description" = true := by
  refine ⟨?_, ?_, ?_, ?_, ?_, ?_, ?_, ?_, ?_, ?_, ?_, ?_⟩
  · intro h
    rw [parseEmail_title]
    simp [h]
  · intro h
    rw [parseEmail_company]
    simp [h]
  · intro h
    rw [parseEmail_location]
    simp [h]
  · intro h
    rw [parseEmail_url]
    simp [h]
  · intro h
    rw [parseEmail_source]
    simp [h]
  · intro h
    rw [parseEmail_description, (dmem_eq_false_iff g "description").mp h]
    rfl
  · show (dlookup (parseEmail s b f g) "title").isSome = true
    rw [parseEmail_title]
    exact ite_isSome _ _ _ (fun h => by
      rw [Bool.or_eq_false_iff] at h
      exact not_eq_false_elim h.1)
  · show (dlookup (parseEmail s b f g) "company").isSome = true
    rw [parseEmail_company]
    exact ite_isSome _ _ _ (fun h => not_eq_false_elim h)
  · show (dlookup (parseEmail s b f g) "location").isSome = true
    rw [parseEmail_location]
    exact ite_isSome _ _ _ (fun h => not_eq_false_elim h)
  · show (dlookup (parseEmail s b f g) "url").isSome = true
    rw [parseEmail_url]
    exact ite_isSome _ _ _ (fun h => not_eq_false_elim h)
  · show (dlookup (parseEmail s b f g) "source").isSome = true
    rw [parseEmail_source]
    exact ite_isSome _ _ _ (fun h => not_eq_false_elim h)
  · show (dlookup (parseEmail s b f g) "description").isSome = true
    rw [parseEmail_description]
    rfl

/-- Witness for `parse_email_backfill` on an empty Gateway output. -/
theorem parse_email_backfill_witness :
    dlookup (parseEmail "Senior Backend Engineer - Acme Corp"
        "apply at https://acme.com/careers/123" "jobs@linkedin.com" []) "title"
      = some (.str
          (extractTitleFromSubject "Senior Backend Engineer - Acme Corp"))
    ∧ dlookup (parseEmail "Senior Backend Engineer - Acme Corp"
        "apply at https://acme.com/careers/123" "jobs@linkedin.com" [])
        "source"
      = some (.str (extractSource "jobs@linkedin.com")) :=
  ⟨(parse_email_backfill "Senior Backend Engineer - Acme Corp"
      "apply at https://acme.com/careers/123" "jobs@linkedin.com" []).1 rfl,
   (parse_email_backfill "Senior Backend Engineer - Acme Corp"
      "apply at https://acme.com/careers/123"
      "jobs@linkedin.com" []).2.2.2.2.1 rfl⟩

theorem countId_pos_any (store : List (String × Dict)) (jid : String)
    (h : 1 ≤ countId store jid) :
    store.any (fun p => jvalEqStr (dgetD p.2 "id" .null) jid) = true := by
  unfold countId at h
  rw [List.any_eq_true]
  have hne : store.filter (fun p => jvalEqStr (dgetD p.2 "id" .null) jid) ≠ [] := by
    intro hnil
    rw [hnil] at h
    exact absurd h (by decide)
  obtain ⟨x, hx⟩ := List.exists_mem_of_ne_nil _ hne
  have := List.mem_filter.mp hx
  exact ⟨x, this.1, this.2⟩

theorem fsWriteJob_any (store : List (String × Dict)) (fname : String)
    (record : Dict) (q : String × Dict → Bool)
    (hq : q (fname, record) = true) :
    (fsWriteJob store fname record).any q = true := by
  unfold fsWriteJob
  split
  · rename_i hex
    rw [List.any_eq_true] at hex ⊢
    obtain ⟨p, hp, hpf⟩ := hex
    refine ⟨(fname, record), ?_, hq⟩
    rw [List.mem_map]
    exact ⟨p, hp, by rw [if_pos (of_decide_eq_true hpf)]⟩
  · rw [List.any_eq_true]
    exact ⟨(fname, record), List.mem_append_right _ (by simp), hq⟩

theorem processEmail_store_dup (st : IngestState) (eid : String) (d : Dict)
    (h : st.store.any
      (fun p => jvalEqStr (dgetD p.2 "id" .null) (generateJobId d)) = true) :
    (processEmail st eid (.ok d)).store = st.store := by
  simp only [processEmail, h]
  rfl

theorem processEmail_any_id (st : IngestState) (eid : String) (d : Dict) :
    (processEmail st eid (.ok d)).store.any
      (fun p => jvalEqStr (dgetD p.2 "id" .null) (generateJobId d)) = true := by
  simp only [processEmail]
  split
  · rename_i h
    exact h
  · apply fsWriteJob_any
    simp [jvalEqStr, dgetD_eq, dlookup_dset]

/-- C3: ingestion is idempotent at the record level. If the store already
holds exactly one record whose id equals the id derived from the parsed
email, processing that email leaves the store unchanged (the would-be id is
computed and found, so nothing is written) and the store still holds
exactly one record with that id; moreover, for any store, processing the
same parsed email a second time never changes the store again. -/
theorem ingestion_idempotent (st : IngestState) (emailId : String)
    (jobData : Dict)
    (h : countId st.store (generateJobId jobData) = 1) :
    (processEmail st emailId (.ok jobData)).store = st.store
    ∧ countId (processEmail st emailId (.ok jobData)).store
        (generateJobId jobData) = 1
    ∧ ∀ (st2 : IngestState) (id2 : String),
        (processEmail (processEmail st2 id2 (.ok jobData)) id2
            (.ok jobData)).store
          = (processEmail st2 id2 (.ok jobData)).store := by
  have hany := countId_pos_any st.store (generateJobId jobData) (by omega)
  have hst : (processEmail st emailId (.ok jobData)).store = st.store :=
    processEmail_store_dup st emailId jobData hany
  refine ⟨hst, by rw [hst]; exact h, ?_⟩
  intro st2 id2
  exact processEmail_store_dup _ id2 jobData (processEmail_any_id st2 id2 jobData)

/-- Witness for `ingestion_idempotent` on a one-record store. -/
theorem ingestion_idempotent_witness :
    (processEmail
        ⟨[(generateJobId [("title", .str "T")],
           [("id", .str (generateJobId [("title", .str "T")]))])], [], 1⟩
        "m2" (.ok [("title", .str "T")])).store
      = [(generateJobId [("title", .str "T")],
          [("id", .str (generateJobId [("title", .str "T")]))])] :=
  (ingestion_idempotent
    ⟨[(generateJobId [("title", .str "T")],
       [("id", .str (generateJobId [("title", .str "T")]))])], [], 1⟩
    "m2" [("title", .str "T")]
    (by simp [countId, jvalEqStr, dgetD_eq, dlookup])).1

theorem checkEmails_cons (e : String × Except String Dict)
    (tl : List (String × Except String Dict)) (st0 : IngestState) :
    checkEmails (e :: tl) st0 = checkEmails tl (processEmail st0 e.1 e.2) :=
  rfl

theorem processEmail_marked_ok (st : IngestState) (eid : String) (d : Dict) :
    (processEmail st eid (.ok d)).marked = st.marked ++ [eid] := by
  simp only [processEmail]
  split <;> rfl

theorem checkEmails_marked_mono (emails : List (String × Except String Dict))
    (st0 : IngestState) (id : String) (h : id ∈ st0.marked) :
    id ∈ (checkEmails emails st0).marked := by
  induction emails generalizing st0 with
  | nil => exact h
  | cons hd tl ih =>
    rw [checkEmails_cons]
    apply ih
    obtain ⟨hid, hres⟩ := hd
    cases hres with
    | error e => exact h
    | ok d =>
      rw [processEmail_marked_ok]
      exact List.mem_append_left _ h

theorem checkEmails_marked_of_ok (emails : List (String × Except String Dict))
    (st0 : IngestState) (id : String) (d : Dict)
    (h : (id, Except.ok d) ∈ emails) :
    id ∈ (checkEmails emails st0).marked := by
  induction emails generalizing st0 with
  | nil => cases h
  | cons hd tl ih =>
    rw [checkEmails_cons]
    rcases List.mem_cons.mp h with heq | htl
    · rw [← heq]
      apply checkEmails_marked_mono
      rw [processEmail_marked_ok]
      exact List.mem_append_right _ (by simp)
    · exact ih _ htl

theorem checkEmails_marked_subset (emails : List (String × Except String Dict))
    (st0 : IngestState) (id : String)
    (h : id ∈ (checkEmails emails st0).marked) :
    id ∈ st0.marked ∨ ∃ d, (id, Except.ok d) ∈ emails := by
  induction emails generalizing st0 with
  | nil => exact .inl h
  | cons hd tl ih =>
    rw [checkEmails_cons] at h
    rcases ih _ h with h1 | ⟨d, hd2⟩
    · obtain ⟨hid, hres⟩ := hd
      cases hres with
      | error e => exact .inl h1
      | ok dd =>
        rw [processEmail_marked_ok] at h1
        rcases List.mem_append.mp h1 with h2 | h2
        · exact .inl h2
        · refine .inr ⟨dd, ?_⟩
          rw [List.mem_singleton.mp h2]
          exact List.mem_cons_self _ _
    · exact .inr ⟨d, List.mem_cons_of_mem _ hd2⟩

/-- C7, counterexample: a message whose parsing raises an exception is not
marked read — the `except` clause only logs and continues, so the batch of
one failing message ends with nothing marked, contradicting "every
processed message is marked read regardless of outcome". -/
theorem mark_read_exception_counterexample :
    "m1" ∉ (checkEmails [("m1", Except.error "boom")] ⟨[], [], 0⟩).marked := by
  decide

/-- C7, amended: every message whose parsing succeeds is marked read
(whether stored as new or skipped as a duplicate), and a per-message
failure does not prevent later messages from being processed and marked;
but a message whose parsing raises is itself not marked read. -/
theorem mark_read_amended (emails : List (String × Except String Dict))
    (st0 : IngestState) :
    (∀ id d, (id, Except.ok d) ∈ emails →
      id ∈ (checkEmails emails st0).marked)
    ∧ (∀ id e, (id, Except.error e) ∈ emails →
        (∀ d, (id, Except.ok d) ∉ emails) → id ∉ st0.marked →
        id ∉ (checkEmails emails st0).marked) :=
  ⟨fun id d h => checkEmails_marked_of_ok emails st0 id d h,
   fun id _ _ hnok hnst hmem =>
     (checkEmails_marked_subset emails st0 id hmem).elim hnst
       (fun ⟨d, hd⟩ => hnok d hd)⟩

/-- Witness for `mark_read_amended`: in a batch where the first message
fails and the second parses, the second is marked and the first is not. -/
theorem mark_read_amended_witness :
    "b" ∈ (checkEmails [("a", Except.error "boom"),
        ("b", Except.ok [("title", .str "T")])] ⟨[], [], 0⟩).marked
    ∧ "a" ∉ (checkEmails [("a", Except.error "boom"),
        ("b", Except.ok [("title", .str "T")])] ⟨[], [], 0⟩).marked :=
  ⟨(mark_read_amended _ _).1 "b" [("title", .str "T")] (by simp),
   (mark_read_amended _ _).2 "a" "boom" (by simp)
     (fun d h => by simp at h) (by simp)⟩

theorem scoreJob_score (resumeSkills : List JVal) (job scoringResult : Dict) :
    dlookup (scoreJob resumeSkills job scoringResult) "score"
      = if dmem scoringResult "error" = true then some (.num 0)
        else
          match pyInt (dgetD scoringResult "score" (.num 0)) with
          | some n => some (.num (max 0 (min 100 n)))
          | none => some (.num 0) := by
  unfold scoreJob
  by_cases hc : dmem scoringResult "error" = true
  · rw [if_pos hc, if_pos hc]
    rfl
  · rw [if_neg hc, if_neg hc]
    rw [dlookup_dset, if_neg (by decide),
      dlookup_dset, if_neg (by decide),
      dlookup_dset, if_neg (by decide),
      dlookup_condset_ne _ _ _ _ _ (by decide),
      dlookup_condset_ne _ _ _ _ _ (by decide),
      dlookup_condset_ne _ _ _ _ _ (by decide)]
    cases hpi : pyInt (dgetD scoringResult "score" (.num 0)) <;>
      simp [hpi, dlookup_dset]

/-- C2: the score stored by `score_job` is always an integer in [0, 100],
for any value the Gateway returned in `score` (including negative, too
large, non-numeric or absent) and also when the Gateway returned its error
sentinel; a sentinel, a non-numeric score or a missing score coerces to 0. -/
theorem score_job_clamped (resumeSkills : List JVal) (job scoringResult : Dict) :
    (∃ n : Int, dlookup (scoreJob resumeSkills job scoringResult) "score"
        = some (.num n) ∧ 0 ≤ n ∧ n ≤ 100)
    ∧ (dmem scoringResult "error" = true →
        dlookup (scoreJob resumeSkills job scoringResult) "score"
          = some (.num 0))
    ∧ (dmem scoringResult "error" = false →
        pyInt (dgetD scoringResult "score" (.num 0)) = none →
        dlookup (scoreJob resumeSkills job scoringResult) "score"
          = some (.num 0))
    ∧ (dmem scoringResult "error" = false →
        dlookup scoringResult "score" = none →
        dlookup (scoreJob resumeSkills job scoringResult) "score"
          = some (.num 0)) := by
  rw [scoreJob_score]
  by_cases hc : dmem scoringResult "error" = true
  · rw [if_pos hc]
    exact ⟨⟨0, rfl, by omega, by omega⟩,
      fun _ => rfl, fun h => absurd hc (by simp [h]),
      fun h => absurd hc (by simp [h])⟩
  · rw [if_neg hc]
    refine ⟨?_, fun h => absurd h hc, fun _ h => by rw [h], fun _ h => ?_⟩
    · cases hpi : pyInt (dgetD scoringResult "score" (.num 0)) with
      | none => exact ⟨0, rfl, by omega, by omega⟩
      | some n => exact ⟨max 0 (min 100 n), rfl, by omega, by omega⟩
    · rw [dgetD_eq, h]
      show some (JVal.num (max 0 (min 100 0))) = some (JVal.num 0)
      rw [show max 0 (min 100 0) = (0 : Int) from by decide]

/-- Witness for `score_job_clamped`: an error sentinel and a non-numeric
score both store 0. -/
theorem score_job_clamped_witness :
    dlookup (scoreJob [] [] [("error", .str "x")]) "score" = some (.num 0)
    ∧ dlookup (scoreJob [] [] [("score", .str "abc")]) "score" = some (.num 0)
    ∧ dlookup (scoreJob [] [] [("reasoning", .str "r")]) "score"
      = some (.num 0) :=
  ⟨(score_job_clamped [] [] [("error", .str "x")]).2.1 rfl,
   (score_job_clamped [] [] [("score", .str "abc")]).2.2.1 rfl rfl,
   (score_job_clamped [] [] [("reasoning", .str "r")]).2.2.2 rfl rfl⟩

theorem reviewLe_trans (a b c : Dict)
    (hab : decide (scoreInt b ≤ scoreInt a) = true)
    (hbc : decide (scoreInt c ≤ scoreInt b) = true) :
    decide (scoreInt c ≤ scoreInt a) = true := by
  rw [decide_eq_true_eq] at hab hbc ⊢
  omega

theorem reviewLe_total (a b : Dict) :
    (decide (scoreInt b ≤ scoreInt a) || decide (scoreInt a ≤ scoreInt b))
      = true := by
  rcases Int.le_total (scoreInt b) (scoreInt a) with h | h <;> simp [h]

/-- C9: with a minimum score given, the review operation keeps exactly the
records whose score (absent read as 0) reaches the minimum and presents
them in descending score order; in particular over five records scoring
[95, 60, 80, 0, absent] with minimum 80, exactly the records scoring 95
and 80 are returned, in that order. -/
theorem review_min_score (jobs : List Dict) (m : Int)
    (hnum : ∀ j ∈ jobs, scoreNumeric j = true) :
    (∀ j, j ∈ reviewJobs jobs m ↔ (j ∈ jobs ∧ m ≤ scoreInt j))
    ∧ List.Sorted (fun a b => scoreInt b ≤ scoreInt a) (reviewJobs jobs m)
    ∧ reviewJobs
        [[("title", .str "J1"), ("score", .num 95)],
         [("title", .str "J2"), ("score", .num 60)],
         [("title", .str "J3"), ("score", .num 80)],
         [("title", .str "J4"), ("score", .num 0)],
         [("title", .str "J5")]] 80
      = [[("title", .str "J1"), ("score", .num 95)],
         [("title", .str "J3"), ("score", .num 80)]] := by
  refine ⟨?_, ?_, ?_⟩
  · intro j
    unfold reviewJobs
    rw [(List.mergeSort_perm _ _).mem_iff, List.mem_filter]
    simp
  · unfold reviewJobs
    have hs := @List.sorted_mergeSort Dict
      (fun a b => decide (scoreInt b ≤ scoreInt a))
      reviewLe_trans reviewLe_total
      (jobs.filter fun j => decide (m ≤ scoreInt j))
    exact List.Pairwise.imp (fun h => of_decide_eq_true h) hs
  · unfold reviewJobs
    rw [show List.filter (fun j => decide ((80 : Int) ≤ scoreInt j))
        [[("title", .str "J1"), ("score", .num 95)],
         [("title", .str "J2"), ("score", .num 60)],
         [("title", .str "J3"), ("score", .num 80)],
         [("title", .str "J4"), ("score", .num 0)],
         [("title", .str "J5")]]
      = [[("title", .str "J1"), ("score", .num 95)],
         [("title", .str "J3"), ("score", .num 80)]] from rfl]
    apply List.mergeSort_of_sorted
    refine List.pairwise_cons.mpr ⟨?_, List.pairwise_singleton _ _⟩
    intro b hb
    rw [List.mem_singleton.mp hb]
    decide

/-- Witness for `review_min_score` on a two-record store. -/
theorem review_min_score_witness :
    [("title", JVal.str "J1"), ("score", JVal.num 95)]
      ∈ reviewJobs [[("title", .str "J1"), ("score", .num 95)],
        [("title", .str "J5")]] 80 :=
  ((review_min_score [[("title", .str "J1"), ("score", .num 95)],
      [("title", .str "J5")]] 80 (by decide)).1 _).mpr
    ⟨by simp, by decide⟩

theorem dmem_backfill_self (d : Dict) (k : String) (v : JVal) :
    dmem (if !dmem d k then dset d k v else d) k = true := by
  cases hm : dmem d k <;> simp [hm]

/-- C5, counterexample: the company-research stage does not default every
requested field — with one fetched page and a Gateway output carrying only
`summary`, the synthesized profile has no `culture` key at all (likewise no
`size`, `industry` or `funding_stage`). -/
theorem backfill_subset_counterexample :
    dlookup (researchCompany "Acme" [⟨"https://a.b", "t", "c"⟩]
      [("summary", .str "s")]) "culture" = none :=
  rfl

/-- C5, amended: each stage backfills a fixed, stage-specific subset of the
requested fields — company research defaults company, tech_stack, values
and recent_news (and always sets sources); scoring defaults score,
reasoning, matched_skills and missing_skills; resume parsing defaults
skills, experience_years and experience_level (and always sets raw_text).
Requested fields outside these subsets (e.g. culture, size, industry,
funding_stage; the five sub-scores; education, notable_projects,
areas_of_expertise, current_role, previous_roles) may be absent. -/
theorem backfill_stage_subsets (companyName : String)
    (ucs : List UrlContent) (g : Dict) (rs : List JVal) (job sr : Dict)
    (rt : String) (rd d : Dict)
    (hucs : ucs ≠ []) (hg : dmem g "error" = false)
    (hres : parseResumePost rt rd = .ok d) :
    (dmem (researchCompany companyName ucs g) "company" = true
     ∧ dmem (researchCompany companyName ucs g) "tech_stack" = true
     ∧ dmem (researchCompany companyName ucs g) "values" = true
     ∧ dmem (researchCompany companyName ucs g) "recent_news" = true
     ∧ dmem (researchCompany companyName ucs g) "sources" = true)
    ∧ (dmem (scoreJob rs job sr) "score" = true
       ∧ dmem (scoreJob rs job sr) "reasoning" = true
       ∧ dmem (scoreJob rs job sr) "matched_skills" = true
       ∧ dmem (scoreJob rs job sr) "missing_skills" = true)
    ∧ (dmem d "skills" = true ∧ dmem d "experience_years" = true
       ∧ dmem d "experience_level" = true ∧ dmem d "raw_text" = true) := by
  have hemp : ¬(ucs.isEmpty = true) := by
    cases ucs
    · exact absurd rfl hucs
    · simp
  have herr : ¬(dmem g "error" = true) := by
    rw [hg]
    exact Bool.false_ne_true
  refine ⟨?_, ?_, ?_⟩
  · unfold researchCompany
    rw [if_neg hemp, if_neg herr]
    refine ⟨?_, ?_, ?_, ?_, ?_⟩
    · rw [dmem_dset,
        dmem_condset_ne _ _ _ _ _ (by decide),
        dmem_condset_ne _ _ _ _ _ (by decide),
        dmem_condset_ne _ _ _ _ _ (by decide),
        dmem_backfill_self]
      rfl
    · rw [dmem_dset,
        dmem_condset_ne _ _ _ _ _ (by decide),
        dmem_condset_ne _ _ _ _ _ (by decide),
        dmem_backfill_self]
      rfl
    · rw [dmem_dset,
        dmem_condset_ne _ _ _ _ _ (by decide),
        dmem_backfill_self]
      rfl
    · rw [dmem_dset, dmem_backfill_self]
      rfl
    · rw [dmem_dset]
      rfl
  · refine ⟨?_, ?_, ?_, ?_⟩
    · unfold dmem
      rw [scoreJob_score]
      split
      · rfl
      · split <;> rfl
    · unfold scoreJob
      by_cases hc : dmem sr "error" = true
      · rw [if_pos hc]
        rfl
      · rw [if_neg hc,
          dmem_dset, dmem_dset, dmem_dset,
          dmem_condset_ne _ _ _ _ _ (by decide),
          dmem_condset_ne _ _ _ _ _ (by decide),
          dmem_backfill_self]
        rfl
    · unfold scoreJob
      by_cases hc : dmem sr "error" = true
      · rw [if_pos hc]
        rfl
      · rw [if_neg hc,
          dmem_dset, dmem_dset, dmem_dset,
          dmem_condset_ne _ _ _ _ _ (by decide),
          dmem_backfill_self]
        rfl
    · unfold scoreJob
      by_cases hc : dmem sr "error" = true
      · rw [if_pos hc]
        rfl
      · rw [if_neg hc,
          dmem_dset, dmem_dset, dmem_dset,
          dmem_backfill_self]
        rfl
  · unfold parseResumePost at hres
    by_cases hc : dmem rd "error" = true
    · rw [if_pos hc] at hres
      cases hres
    · rw [if_neg hc] at hres
      cases hres
      refine ⟨?_, ?_, ?_, ?_⟩
      · rw [dmem_dset,
          dmem_condset_ne _ _ _ _ _ (by decide),
          dmem_condset_ne _ _ _ _ _ (by decide),
          dmem_backfill_self]
        rfl
      · rw [dmem_dset,
          dmem_condset_ne _ _ _ _ _ (by decide),
          dmem_backfill_self]
        rfl
      · rw [dmem_dset, dmem_backfill_self]
        rfl
      · rw [dmem_dset]
        rfl

/-- Witness for `backfill_stage_subsets` at concrete inputs. -/
theorem backfill_stage_subsets_witness :
    dmem (researchCompany "Acme" [⟨"u", "t", "c"⟩] []) "company" = true
    ∧ dmem (scoreJob [] [] []) "score" = true :=
  ⟨(backfill_stage_subsets "Acme" [⟨"u", "t", "c"⟩] [] [] [] [] "rt" []
      [("skills", .arr []), ("experience_years", .num 0),
       ("experience_level", .str "mid"), ("raw_text", .str "rt")]
      (by simp) rfl rfl).1.1,
   (backfill_stage_subsets "Acme" [⟨"u", "t", "c"⟩] [] [] [] [] "rt" []
      [("skills", .arr []), ("experience_years", .num 0),
       ("experience_level", .str "mid"), ("raw_text", .str "rt")]
      (by simp) rfl rfl).2.1.1⟩

theorem psGo_step_fail (invokeResp : Nat → Except String String)
    (jsonLoads : String → Except String JVal) (prompt : String)
    (attempt n : Nat) (response r : String)
    (hinv : invokeResp attempt = .ok r)
    (hfail : ∀ d, attemptBody jsonLoads r ≠ .ret d) :
    psGo invokeResp jsonLoads prompt attempt (n + 1 + 1) response
      = ((psGo invokeResp jsonLoads prompt (attempt + 1) (n + 1) r).1,
         prompt ::
           (psGo invokeResp jsonLoads prompt (attempt + 1) (n + 1) r).2) := by
  rw [psGo, hinv, psIter]
  cases e : attemptBody jsonLoads r with
  | ret d => exact absurd e (hfail d)
  | exc f =>
    rw [psHandle, if_neg (by simp)]
  | fall =>
    rw [psHandle]

theorem psGo_last_fail (invokeResp : Nat → Except String String)
    (jsonLoads : String → Except String JVal) (prompt : String)
    (attempt : Nat) (response r : String)
    (hinv : invokeResp attempt = .ok r)
    (hfail : ∀ d, attemptBody jsonLoads r ≠ .ret d) :
    ∃ e, psGo invokeResp jsonLoads prompt attempt (0 + 1) response
      = (psErrDict e r, [prompt]) := by
  rw [psGo, hinv, psIter]
  cases e : attemptBody jsonLoads r with
  | ret d => exact absurd e (hfail d)
  | exc f =>
    rw [psHandle, if_pos (show ((0 : Nat) == 0) = true from rfl)]
    exact ⟨f, rfl⟩
  | fall =>
    rw [psHandle, psGo]
    exact ⟨"Failed to parse after retries", rfl⟩

/-- C1: when every model response is text from which no JSON object can be
decoded (each loop iteration either catches an exception or falls through
on a non-object decode), `parse_structured` sends the identical prompt
exactly 3 times, returns a mapping with an `error` key whose
`raw_response` holds the last raw response truncated to 500 characters,
and raises nothing (the embedded loop is total: every exception is caught
inside it). -/
theorem parse_structured_retry_bound
    (invokeResp : Nat → Except String String)
    (jsonLoads : String → Except String JVal)
    (prompt : String) (resp : Nat → String)
    (hinv : ∀ i, invokeResp i = .ok (resp i))
    (hfail : ∀ i d, attemptBody jsonLoads (resp i) ≠ .ret d) :
    (parseStructured invokeResp jsonLoads prompt 3).2
        = [prompt, prompt, prompt]
    ∧ (∃ v, dlookup (parseStructured invokeResp jsonLoads prompt 3).1 "error"
        = some v)
    ∧ dlookup (parseStructured invokeResp jsonLoads prompt 3).1 "raw_response"
        = some (.str ((resp 2).take 500)) := by
  unfold parseStructured
  rw [show (3 : Nat) = 1 + 1 + 1 from rfl]
  rw [psGo_step_fail invokeResp jsonLoads prompt 0 1 "" (resp 0)
    (hinv 0) (hfail 0)]
  rw [show (1 : Nat) + 1 = 0 + 1 + 1 from rfl]
  rw [psGo_step_fail invokeResp jsonLoads prompt (0 + 1) 0 (resp 0)
    (resp (0 + 1)) (hinv (0 + 1)) (hfail (0 + 1))]
  obtain ⟨e2, he2⟩ := psGo_last_fail invokeResp jsonLoads prompt (0 + 1 + 1)
    (resp (0 + 1)) (resp (0 + 1 + 1)) (hinv (0 + 1 + 1)) (hfail (0 + 1 + 1))
  rw [he2]
  exact ⟨rfl, ⟨.str e2, rfl⟩, rfl⟩

/-- Witness for `parse_structured_retry_bound`: a model that always
answers "nope", which decodes to nothing. -/
theorem parse_structured_retry_bound_witness :
    (parseStructured (fun _ => .ok "nope") (fun _ => .error "bad")
        "p" 3).2 = ["p", "p", "p"]
    ∧ dlookup (parseStructured (fun _ => .ok "nope")
        (fun _ => .error "bad") "p" 3).1 "raw_response"
      = some (.str ("nope".take 500)) :=
  ⟨(parse_structured_retry_bound _ _ "p" (fun _ => "nope") (fun _ => rfl)
      (fun _ d h => AttemptOut.noConfusion h)).1,
   (parse_structured_retry_bound _ _ "p" (fun _ => "nope") (fun _ => rfl)
      (fun _ d h => AttemptOut.noConfusion h)).2.2⟩

/-- Witness for `parse_email_asymmetry` at a concrete input. -/
theorem parse_email_asymmetry_witness :
    dlookup (parseEmail "Dev - X" "b" "f"
        [("title", .str ""), ("company", .str ""), ("location", .str "")])
        "title"
      = some (.str (extractTitleFromSubject "Dev - X"))
    ∧ dlookup (parseEmail "Dev - X" "b" "f"
        [("title", .str ""), ("company", .str ""), ("location", .str "")])
        "company" = some (.str "")
    ∧ dlookup (parseEmail "Dev - X" "b" "f"
        [("title", .str ""), ("company", .str ""), ("location", .str "")])
        "location" = some (.str "")
    ∧ generateJobId [("title", .str "T"), ("company", .str ""),
        ("url", .str "https://a.b")]
      = generateJobId [("title", .str "T"), ("url", .str "https://a.b")] :=
  parse_email_asymmetry "Dev - X" "b" "f"
    [("title", .str ""), ("company", .str ""), ("location", .str "")]
    "T" "https://a.b" rfl rfl rfl
